import Mathlib

/-!
Shallow embedding of the authentication/session core of the
instagram-clone-backend repository (FastAPI + python-jose + passlib +
Redis), together with proofs about the claims of its specification.

Conventions of the embedding:
* machine time (unix seconds) is `Int`;
* Python dictionaries of JWT claims are the record `Claims`, where a
  field that is `none` stands for an absent key (a key explicitly bound
  to `None` in a payload is identified with an absent key: no code path
  of the modelled core distinguishes the two);
* a JWT compact string is the symbolic `JwtString`: either a token signed
  by this system (its claims, key and algorithm) or an arbitrary other
  string that no decode accepts;
* fallible Python code returns `Outcome`, whose `crash` constructor
  records an exception that no handler of the modelled code catches
  (FastAPI turns it into an HTTP 500);
* the Redis and MongoDB collaborators are passed and returned
  explicitly (`RedisBackend`, `List User`).
-/

/-- Configuration surface consumed by the auth core (core/config.py):
signing secret and algorithm, token TTLs, server host used as issuer and
audience base, the `base_url` default that `schemas/token.py` pins the
`aud` claim to, and the reset-token TTL in hours. -/
structure Settings where
  SECRET_KEY : String
  ALGORITHM : String
  SERVER_HOST : String
  base_url : String
  ACCESS_TOKEN_EXPIRE_MINUTES : Int
  REFRESH_TOKEN_EXPIRE_MINUTES : Int
  refresh_token_expire_seconds : Int
  EMAIL_RESET_TOKEN_EXPIRE_HOURS : Int
deriving Repr, DecidableEq

/-- JWT claims payload (the JSON object carried by a token). Fields are
optional because different tokens of the system carry different subsets
(login session tokens vs password-reset tokens). String-valued claims
keep their serialized (`jsonable_encoder`) form. -/
structure Claims where
  iss : Option String := none
  sub : Option String := none
  aud : Option String := none
  exp : Option Int := none
  nbf : Option Int := none
  iat : Option Int := none
  jti : Option String := none
  scope : Option String := none
  given_name : Option String := none
  family_name : Option String := none
  nickname : Option String := none
  preferred_username : Option String := none
  email : Option String := none
  gender : Option String := none
  birthdate : Option String := none
  phone_number : Option String := none
  address : Option String := none
  updated_at : Option String := none
  middle_name : Option String := none
  name : Option String := none
deriving Repr, DecidableEq

/-- A JWT compact serialization: either the deterministic signed encoding
of a claims set under a key and algorithm (`jose.jwt.encode`), or any
other string, which never verifies. -/
inductive JwtString
  | signed (claims : Claims) (key : String) (alg : String)
  | garbage (s : String)
deriving Repr, DecidableEq

/-- Model of `jose.jwt.encode(claims, key, algorithm)`. -/
def joseEncode (claims : Claims) (key alg : String) : JwtString :=
  .signed claims key alg

/-- Failure kinds of `jose.jwt.decode`: `ExpiredSignatureError`,
`JWTClaimsError` (audience/issuer mismatch, immature `nbf`, or malformed
claim), and any other `JWTError` (bad signature, malformed token). -/
inductive JoseError
  | expiredSignature
  | claimsError
  | jwtError
deriving Repr, DecidableEq

/-- The `nbf` validation of python-jose (`_validate_nbf`): a present `nbf`
in the future raises `JWTClaimsError` ("The token is not yet valid (nbf)"). -/
def nbfImmature (c : Claims) (now : Int) : Bool :=
  match c.nbf with
  | some n => decide (now < n)
  | none => false

/-- The `exp` validation of python-jose (`_validate_exp`, leeway 0): a
present `exp` strictly before now raises `ExpiredSignatureError`. -/
def expExpired (c : Claims) (now : Int) : Bool :=
  match c.exp with
  | some e => decide (e < now)
  | none => false

/-- The `aud` validation of python-jose (`_validate_aud`): skipped when the
token has no `aud` claim; a present `aud` different from the requested
audience raises `JWTClaimsError`. -/
def audMismatch (c : Claims) (audience : String) : Bool :=
  match c.aud with
  | some a => !(a == audience)
  | none => false

/-- The `iss` validation of python-jose (`_validate_iss`): when an issuer is
requested, `claims.get("iss")` must equal it, so a token with NO `iss`
claim also raises `JWTClaimsError`. -/
def issMismatch (c : Claims) (issuer : String) : Bool :=
  !(c.iss == some issuer)

/-- Model of `jose.jwt.decode(token, key, algorithms=[alg], audience, issuer)` as
called throughout the repository. Signature (key and algorithm) is
checked first, then claims are validated in the order of python-jose
`_validate_claims`: `nbf`, `exp`, `aud`, `iss`. The `verify_subject`
option the code passes is not a python-jose option name and has no
effect; subject validation with no requested subject accepts every
string `sub`. -/
def joseDecode (tok : JwtString) (key alg audience issuer : String)
    (now : Int) : Except JoseError Claims :=
  match tok with
  | .garbage _ => .error .jwtError
  | .signed claims k a =>
    if !(k == key && a == alg) then .error .jwtError
    else if nbfImmature claims now then .error .claimsError
    else if expExpired claims now then .error .expiredSignature
    else if audMismatch claims audience then .error .claimsError
    else if issMismatch claims issuer then .error .claimsError
    else .ok claims

/-- Function `decode_token` of api/deps.py: decode the token against the
configured key, algorithm, audience `SERVER_HOST + '/authentication/login'`
and issuer `SERVER_HOST`; every decode failure kind is caught, logged
and collapsed to `None`. -/
def decode_token (tok : JwtString) (setting : Settings) (now : Int) :
    Option Claims :=
  match joseDecode tok setting.SECRET_KEY setting.ALGORITHM
      (setting.SERVER_HOST ++ "/authentication/login")
      setting.SERVER_HOST now with
  | .ok payload => some payload
  | .error .expiredSignature => none
  | .error .claimsError => none
  | .error .jwtError => none

/-- Error raised by passlib at verification time. Per passlib's
documented contract, `CryptContext.verify` raises `UnknownHashError`
(a `ValueError`) when the hash string cannot be identified as one of the
configured schemes, rather than returning `False`. -/
inductive PasslibError
  | unknownHashError
deriving Repr, DecidableEq

/-- Semantic view of a stored password-hash string for the context
`CryptContext(schemes=['bcrypt'], deprecated='auto')` of
core/security.py: either a well-formed bcrypt hash of some secret, or a
string that is not recognizable as a hash of any configured scheme. -/
inductive HashStr
  | bcrypt (secret : String)
  | malformed (s : String)
deriving Repr, DecidableEq

/-- passlib `CryptContext.verify(secret, hash)`: a recognizable bcrypt
hash verifies exactly the secret it hashes; an unidentifiable hash
string raises `UnknownHashError` (it is not reported as a mismatch). -/
def CryptContext.verify (secret : String) (hash : HashStr) :
    Except PasslibError Bool :=
  match hash with
  | .bcrypt s => .ok (s == secret)
  | .malformed _ => .error .unknownHashError

/-- Function `get_password_hash` of core/security.py: `pwd_cxt.hash(secret=password)`. -/
def get_password_hash (password : String) : HashStr :=
  .bcrypt password

/-- Function `verify_password` of core/security.py: a direct, unguarded call to
`pwd_cxt.verify(secret=plain_password, hash=hashed_password)`; any
passlib error propagates to the caller. -/
def verify_password (hashed_password : HashStr) (plain_password : String) :
    Except PasslibError Bool :=
  CryptContext.verify plain_password hashed_password

/-- User document (models/user.py), restricted to the fields the auth
core reads. `id` is the MongoDB ObjectId rendered as its 24-character
lowercase hex string; `gender` holds the `Gender` enum's string value
(the login handler reads `found_user.gender.value`). -/
structure User where
  id : String
  username : String
  email : String
  password : HashStr
  given_name : String
  family_name : String
  middle_name : Option String
  gender : String
  birthdate : Option String
  phone_number : Option String
  address : Option String
  updated_at : Option String
deriving Repr, DecidableEq

/-- One Redis entry written by `SETEX`: key, value and TTL in seconds. -/
structure StoreEntry where
  key : String
  value : JwtString
  ttl : Int
deriving Repr, DecidableEq

/-- The refresh-token store: newest entry first. -/
def Store := List StoreEntry
deriving Repr, DecidableEq

/-- Redis `GET`-visible content at a key (the newest `SETEX` wins). -/
def storeFind (st : Store) (k : String) : Option StoreEntry :=
  List.find? (fun e => e.key == k) st

/-- Redis `SETEX key ttl value`. -/
def storeSet (st : Store) (k : String) (ttl : Int) (v : JwtString) : Store :=
  (⟨k, v, ttl⟩ : StoreEntry) :: st

/-- The Redis collaborator: either reachable with its current contents,
or unavailable (every command raises a `RedisError`). -/
inductive RedisBackend
  | ok (st : Store)
  | down
deriving Repr, DecidableEq

/-- Schema `Token` of models/token.py: refresh-token store key and value. -/
structure Token where
  key : String
  token : JwtString
deriving Repr, DecidableEq

/-- Method `TokenService.create_token` of services/token.py:
`redis.setex(token.key, setting.refresh_token_expire_seconds, token.token)`;
a `RedisError` is caught and reported as `inserted = False`. -/
def TokenService.create_token (token : Token) (setting : Settings)
    (redis : RedisBackend) : Bool × RedisBackend :=
  match redis with
  | .down => (false, .down)
  | .ok st =>
    (true, .ok (storeSet st token.key setting.refresh_token_expire_seconds
      token.token))

/-- Method `TokenService.get_token` of services/token.py: `redis.get(key)`; a
`RedisError` is caught and collapsed to `None`. -/
def TokenService.get_token (key : String) (redis : RedisBackend) :
    Option JwtString :=
  match redis with
  | .down => none
  | .ok st => (storeFind st key).map (fun e => e.value)

/-- Python truthiness of an optional string (`if value:`): false for a
missing value and for the empty string. -/
def pyTruthy (o : Option String) : Bool :=
  match o with
  | some s => !(s == "")
  | none => false

/-- Python `str.replace(old, '')` (removal of every non-overlapping
occurrence, scanning left to right), written with a character-count fuel
so the kernel can evaluate it. -/
def pyRemoveAux (pat : List Char) : Nat → List Char → List Char
  | 0, cs => cs
  | _ + 1, [] => []
  | fuel + 1, c :: rest =>
    if ((c :: rest).take pat.length == pat) && !(pat.isEmpty) then
      pyRemoveAux pat fuel (rest.drop (pat.length - 1))
    else c :: pyRemoveAux pat fuel rest

/-- Python `s.replace(pat, '')`. -/
def pyRemove (pat s : String) : String :=
  ⟨pyRemoveAux pat.toList s.toList.length s.toList⟩

/-- Python `str(uuid.UUID(...))`: hex digits are rendered lowercase. -/
def pyLower (s : String) : String :=
  ⟨s.toList.map Char.toLower⟩

/-- pydantic v1 regex check of `schemas/token.py`'s
`sub_regex = '(^username:)[a-z0-9]{24}'` (anchored at the start, no end
anchor). -/
def subRegexMatch (s : String) : Bool :=
  let cs := s.toList
  (cs.take 9 == "username:".toList) &&
    ((cs.drop 9).take 24).length == 24 &&
    ((cs.drop 9).take 24).all (fun ch => ch.isLower || ch.isDigit)

/-- Character admissible at position `i` of a canonical UUID string. -/
def uuidSlotOk (i : Nat) (ch : Char) : Bool :=
  if i == 8 || i == 13 || i == 18 || i == 23 then ch == '-'
  else ch.isDigit || ('a' ≤ ch && ch ≤ 'f') || ('A' ≤ ch && ch ≤ 'F')

/-- A string `uuid.UUID` accepts in canonical hyphenated form. -/
def isUuidString (s : String) : Bool :=
  s.toList.length == 36 && (s.toList.enum.all fun p => uuidSlotOk p.1 p.2)

/-- Check 1 ≤ length ≤ 50, the pydantic bound used by the name-like fields. -/
def strLen1to50 (s : String) : Bool :=
  1 ≤ s.toList.length && s.toList.length ≤ 50

/-- pydantic validation `TokenPayload(**payload)` of schemas/token.py:
required fields are `sub` (matching `sub_regex`), `exp`/`nbf`/`iat`
(integers > 1), `email`, and — `Field` with no default on a
non-`Optional` annotation — `preferred_username`, `name`, `nickname`,
`given_name`, `family_name` (lengths 1..50); `aud` is `const=True`
against the configured default `base_url + '/authentication/login'`;
`jti`, when present, must be a UUID string; `scope` and `gender` must
belong to their enums; `middle_name` is capped at 50 characters.
Purely syntactic format checks of `AnyUrl`, `EmailStr`, `PastDate` and
the telephone regex are abstracted as accepting — no claim under proof
turns on them. -/
def tokenPayloadValid (setting : Settings) (c : Claims) : Bool :=
  (match c.sub with | some s => subRegexMatch s | none => false) &&
  (match c.exp with | some e => decide (1 < e) | none => false) &&
  (match c.nbf with | some n => decide (1 < n) | none => false) &&
  (match c.iat with | some i => decide (1 < i) | none => false) &&
  (match c.aud with
    | some a => a == setting.base_url ++ "/authentication/login"
    | none => true) &&
  (match c.jti with | some j => isUuidString j | none => true) &&
  (match c.scope with
    | some s => s == "access_token" || s == "refresh_token"
    | none => true) &&
  c.email.isSome &&
  (match c.preferred_username with | some p => strLen1to50 p | none => false) &&
  (match c.name with | some n => strLen1to50 n | none => false) &&
  (match c.nickname with | some n => strLen1to50 n | none => false) &&
  (match c.given_name with | some g => strLen1to50 g | none => false) &&
  (match c.family_name with | some f => strLen1to50 f | none => false) &&
  (match c.middle_name with | some m => m.toList.length ≤ 50 | none => true) &&
  (match c.gender with
    | some g => g == "male" || g == "female" || g == "other"
    | none => true)

/-- Result of one HTTP request to the modelled service: a successful
response value, a raised `HTTPException` with status code and detail, or
an exception no handler catches (rendered by the framework as a 500). -/
inductive Outcome (α : Type)
  | ok (value : α)
  | httpError (code : Nat) (detail : String)
  | crash (exc : String)
deriving Repr, DecidableEq

/-- Function `create_access_token` of core/security.py: overwrite `exp` in the
given payload with now plus `expires_delta` (seconds) when given, else
now plus `ACCESS_TOKEN_EXPIRE_MINUTES` minutes, then sign. Returns the
token together with the mutated payload dictionary (the Python function
updates its argument in place). -/
def create_access_token (payload : Claims) (expires_delta : Option Int)
    (setting : Settings) (nowEnc : Int) : JwtString × Claims :=
  let expire : Int :=
    match expires_delta with
    | some d => nowEnc + d
    | none => nowEnc + 60 * setting.ACCESS_TOKEN_EXPIRE_MINUTES
  let payload2 := { payload with exp := some expire }
  (joseEncode payload2 setting.SECRET_KEY setting.ALGORITHM, payload2)

/-- Function `create_refresh_token` of core/security.py: an access-token encode
with `expires_delta = REFRESH_TOKEN_EXPIRE_MINUTES` minutes. -/
def create_refresh_token (payload : Claims) (setting : Settings)
    (nowEnc : Int) : JwtString × Claims :=
  create_access_token payload
    (some (60 * setting.REFRESH_TOKEN_EXPIRE_MINUTES)) setting nowEnc

/-- The successive clock readings the login handler takes: three
`time.time()` calls while building the payload (for `exp`, `nbf`, `iat`
in that order) and one `datetime.utcnow()` inside each of the two token
encodes. -/
structure LoginClock where
  tExp : Int
  tNbf : Int
  tIat : Int
  tEncA : Int
  tEncR : Int
deriving Repr, DecidableEq

/-- Clock readings taken later in the handler are not earlier. -/
def LoginClock.Mono (c : LoginClock) : Prop :=
  c.tExp ≤ c.tNbf ∧ c.tNbf ≤ c.tIat ∧ c.tIat ≤ c.tEncA ∧ c.tEncA ≤ c.tEncR

/-- The claims dictionary the login handler builds
(api/router/authentication.py lines 64-81): note `exp` adds the
configured MINUTES directly to epoch seconds (it is overwritten inside
`create_access_token` anyway), `nbf` is one second before its own clock
reading, and `middle_name`/`name` are added only when the user has a
truthy middle name. -/
def loginPayload (found_user : User) (setting : Settings) (jti : String)
    (clk : LoginClock) : Claims :=
  let payload : Claims := {
    iss := some setting.SERVER_HOST,
    sub := some ("username:" ++ found_user.id),
    aud := some (setting.SERVER_HOST ++ "/authentication/login"),
    exp := some (clk.tExp + setting.ACCESS_TOKEN_EXPIRE_MINUTES),
    nbf := some (clk.tNbf - 1),
    iat := some clk.tIat,
    jti := some jti,
    given_name := some found_user.given_name,
    family_name := some found_user.family_name,
    nickname := some found_user.given_name,
    preferred_username := some found_user.username,
    email := some found_user.email,
    gender := some found_user.gender,
    birthdate := found_user.birthdate,
    phone_number := found_user.phone_number,
    address := found_user.address,
    updated_at := found_user.updated_at }
  if pyTruthy found_user.middle_name then
    let m := found_user.middle_name.getD ""
    { payload with
      middle_name := some m,
      name := some (found_user.given_name ++ " " ++ m ++ " " ++
        found_user.family_name) }
  else payload

/-- Response schema of the login endpoint. -/
structure TokenResponse where
  access_token : JwtString
  token_type : String
  refresh_token : JwtString
deriving Repr, DecidableEq

/-- The `login` handler of api/router/authentication.py: username
lookup (`UsernameFilter` → `User.find_one`), password verification,
payload construction, access- and refresh-token encoding (the second
reuses the dictionary the first mutated), refresh-token persistence
under key `str(found_user.id) + ':' + str(jti)`, and the bearer
response. An unknown username raises 404 "Invalid credentials"; a
password mismatch raises 404 "Incorrect password"; a failed persistence
raises 400; a passlib error from `verify_password` propagates uncaught. -/
def login (username password : String) (users : List User)
    (setting : Settings) (jti : String) (clk : LoginClock)
    (redis : RedisBackend) : Outcome TokenResponse × RedisBackend :=
  match List.find? (fun u => u.username == username) users with
  | none => (.httpError 404 "Invalid credentials", redis)
  | some found_user =>
    match verify_password found_user.password password with
    | .error _ => (.crash "UnknownHashError", redis)
    | .ok false => (.httpError 404 "Incorrect password", redis)
    | .ok true =>
      let payload := loginPayload found_user setting jti clk
      let ar := create_access_token payload none setting clk.tEncA
      let rr := create_refresh_token ar.2 setting clk.tEncR
      let nm := found_user.id ++ ":" ++ jti
      let res := TokenService.create_token ⟨nm, rr.1⟩ setting redis
      if res.1 then
        (.ok ⟨ar.1, "bearer", rr.1⟩, res.2)
      else
        (.httpError 400 "Could not insert data in Authorization database",
          res.2)

/-- The `refresh_token` handler of api/router/authentication.py. It
calls `decode_token` and immediately subscripts the result: when
`decode_token` returned `None` (any decode failure) the subscript raises
`TypeError`, and a successful decode lacking `sub` or `jti` raises
`KeyError`; neither is caught. Otherwise it looks up the stored refresh
token at `sub-without-'username:'-occurrences + ':' + jti`, strictly
decodes the STORED value, validates it as a `TokenPayload`
(`ValidationError` → 403), compares `jti`s (the stored one through
`str(UUID(...))`, i.e. lowercased; a stored payload without `jti` gets a
fresh `uuid4` default that cannot match), re-checks `preferred_username`
truthiness and expiry, and finally signs a new access token from the
stored payload dictionary with a fresh `exp`. Decode failures of the
stored value map to 401 `Token expired` (expired), 401 claims-message
(`JWTClaimsError`) and 403 (other), per the handler's `except` clauses. -/
def refresh_token_endpoint (token : JwtString) (setting : Settings)
    (redis : RedisBackend) (now nowEnc : Int) :
    Outcome JwtString × RedisBackend :=
  match decode_token token setting now with
  | none => (.crash "TypeError", redis)
  | some current_payload =>
    match current_payload.sub with
    | none => (.crash "KeyError", redis)
    | some sub =>
      match current_payload.jti with
      | none => (.crash "KeyError", redis)
      | some current_jti =>
        match TokenService.get_token
            (pyRemove "username:" sub ++ ":" ++ current_jti) redis with
        | none => (.httpError 403 "Could not validate credentials", redis)
        | some value =>
          match joseDecode value setting.SECRET_KEY setting.ALGORITHM
              (setting.SERVER_HOST ++ "/authentication/login")
              setting.SERVER_HOST now with
          | .error .expiredSignature => (.httpError 401 "Token expired", redis)
          | .error .claimsError =>
            (.httpError 401
              "Authorization claim is incorrect, please check audience and issuer",
              redis)
          | .error .jwtError =>
            (.httpError 403 "Could not validate credentials", redis)
          | .ok payload =>
            if tokenPayloadValid setting payload then
              match payload.jti with
              | none => (.httpError 403 "Could not validate credentials", redis)
              | some j =>
                if !(current_jti == pyLower j) then
                  (.httpError 403 "Could not validate credentials", redis)
                else if !(pyTruthy payload.preferred_username) then
                  (.httpError 403 "Could not validate credentials", redis)
                else if expExpired payload now then
                  (.httpError 401 "Token expired", redis)
                else
                  (.ok (create_access_token payload none setting nowEnc).1,
                    redis)
            else (.httpError 403 "Could not validate credentials", redis)

/-- Response of `get_current_user` (schemas/user.py `UserAuth`). -/
structure UserAuth where
  id : String
  username : String
  email : String
deriving Repr, DecidableEq

/-- Function `get_current_user` of api/deps.py: strict decode of the bearer
token, `TokenPayload` validation (`ValidationError` → 403), presence of
`preferred_username` (else 403), expiry re-check (401 `Token expired`),
then user lookup by username (absent → 403). Decode failure kinds map
exactly as in the refresh handler's `except` clauses. -/
def get_current_user (token : JwtString) (setting : Settings)
    (userdb : List User) (now : Int) : Outcome UserAuth :=
  match joseDecode token setting.SECRET_KEY setting.ALGORITHM
      (setting.SERVER_HOST ++ "/authentication/login")
      setting.SERVER_HOST now with
  | .error .expiredSignature => .httpError 401 "Token expired"
  | .error .claimsError =>
    .httpError 401
      "Authorization claim is incorrect, please check audience and issuer"
  | .error .jwtError => .httpError 403 "Could not validate credentials"
  | .ok payload =>
    if tokenPayloadValid setting payload then
      match payload.preferred_username with
      | none => .httpError 403 "Could not validate credentials"
      | some username =>
        if expExpired payload now then .httpError 401 "Token expired"
        else
          match List.find? (fun u => u.username == username) userdb with
          | none => .httpError 403 "Could not validate credentials"
          | some user => .ok ⟨user.id, user.username, user.email⟩
    else .httpError 403 "Could not validate credentials"

/-- Function `generate_password_reset_token` of helper/helper.py: sign — with the
hardcoded algorithm `"HS256"` — a payload holding ONLY `exp` (now plus
the configured hours), `nbf = now` and `sub = email`. No `iss`, no
`aud`, and no `email` claim is written. -/
def generate_password_reset_token (email : String) (setting : Settings)
    (now : Int) : JwtString :=
  joseEncode
    { exp := some (now + 3600 * setting.EMAIL_RESET_TOKEN_EXPIRE_HOURS),
      nbf := some now,
      sub := some email }
    setting.SECRET_KEY "HS256"

/-- Function `verify_password_reset_token` of helper/helper.py: strict decode
with the SAME audience and issuer requirements as a session token, then
return `decoded_token["email"]`; only `jose.JWTError` is caught (→
`None`), so a successfully decoded token without an `email` claim
raises an uncaught `KeyError`. -/
def verify_password_reset_token (token : JwtString) (setting : Settings)
    (now : Int) : Outcome (Option String) :=
  match joseDecode token setting.SECRET_KEY setting.ALGORITHM
      (setting.SERVER_HOST ++ "/authentication/login")
      setting.SERVER_HOST now with
  | .ok decoded_token =>
    match decoded_token.email with
    | some e => .ok (some e)
    | none => .crash "KeyError"
  | .error _ => .ok none

/-- Method `AuthService.update_password` of services/authentication.py:
`User.find_one(User.email == email)` followed — with NO None check — by
`.update(...)` on the result, so an unknown email raises
`AttributeError` (`'NoneType' object has no attribute 'update'`), which
`handle_nosql_exceptions` (pymongo errors only) does not catch. On a
found user the password is overwritten with `Hasher.hash` and the
updated user returned. -/
def AuthService.update_password (email password : String)
    (userdb : List User) : Outcome User × List User :=
  match List.find? (fun u => u.email == email) userdb with
  | none => (.crash "AttributeError", userdb)
  | some user =>
    let updated := { user with password := get_password_hash password }
    (.ok updated,
      userdb.map (fun u => if u.email == email then updated else u))

/-- The `reset_password` handler of api/router/authentication.py:
verify the reset token (falsy result → 400 "Invalid token"), then
`AuthService.update_password`; its 404 "User not found in the system."
branch fires only when the service returns a falsy user. -/
def reset_password (token : JwtString) (password : String)
    (setting : Settings) (userdb : List User) (now : Int) :
    Outcome String × List User :=
  match verify_password_reset_token token setting now with
  | .crash e => (.crash e, userdb)
  | .httpError c d => (.httpError c d, userdb)
  | .ok none => (.httpError 400 "Invalid token", userdb)
  | .ok (some email) =>
    match AuthService.update_password email password userdb with
    | (.crash e, db) => (.crash e, db)
    | (.httpError c d, db) => (.httpError c d, db)
    | (.ok _, db) => (.ok "Password updated successfully", db)

/-- A configuration with `server_host` equal to the `base_url` default
(so the `aud` a token carries also satisfies the `const` check of
`TokenPayload`). -/
def sampleSetting : Settings := {
  SECRET_KEY := "secret",
  ALGORITHM := "HS256",
  SERVER_HOST := "https://instagram-clone-backend-farm.herokuapp.com",
  base_url := "https://instagram-clone-backend-farm.herokuapp.com",
  ACCESS_TOKEN_EXPIRE_MINUTES := 30,
  REFRESH_TOKEN_EXPIRE_MINUTES := 11520,
  refresh_token_expire_seconds := 691200,
  EMAIL_RESET_TOKEN_EXPIRE_HOURS := 48 }

/-- A concrete `uuid4` value in its canonical lowercase rendering. -/
def sampleJti : String := "ce0f27c1-c559-45b1-b016-a81a600af197"

/-- A registered user whose stored hash verifies "correct-password". -/
def sampleUser : User := {
  id := "63aefa38afda3a176c1e3562",
  username := "alice",
  email := "alice@example.com",
  password := .bcrypt "correct-password",
  given_name := "Alice",
  family_name := "Smith",
  middle_name := some "B",
  gender := "male",
  birthdate := none,
  phone_number := none,
  address := none,
  updated_at := none }

/-- The user collection holding only `sampleUser`. -/
def sampleUsers : List User := [sampleUser]

/-- A login-time clock where all readings fall in the same second. -/
def sampleClock : LoginClock := ⟨100, 100, 100, 100, 100⟩

/-- A full session-token claims set for `sampleUser` that passes
`TokenPayload` validation. -/
def sampleClaims : Claims := {
  iss := some "https://instagram-clone-backend-farm.herokuapp.com",
  sub := some "username:63aefa38afda3a176c1e3562",
  aud := some
    "https://instagram-clone-backend-farm.herokuapp.com/authentication/login",
  exp := some 1000000,
  nbf := some 2,
  iat := some 3,
  jti := some sampleJti,
  given_name := some "Alice",
  family_name := some "Smith",
  nickname := some "Alice",
  preferred_username := some "alice",
  email := some "alice@example.com",
  gender := some "male",
  middle_name := some "B",
  name := some "Alice B Smith" }

/-- A correctly signed refresh token carrying `sampleClaims`. -/
def sampleStoredToken : JwtString := joseEncode sampleClaims "secret" "HS256"

/-- A refresh-token store holding `sampleStoredToken` under
`sampleUser.id : sampleJti`. -/
def sampleStore : Store :=
  [⟨"63aefa38afda3a176c1e3562:" ++ sampleJti, sampleStoredToken, 691200⟩]

/-- A token correctly signed with the configured key whose `iss` claim
is not the configured issuer. -/
def badIssuerToken : JwtString :=
  joseEncode { sampleClaims with iss := some "https://evil.example" }
    "secret" "HS256"

/-- A correctly signed token whose `exp` lies in the past. -/
def expiredSampleToken : JwtString :=
  joseEncode { sampleClaims with exp := some 1 } "secret" "HS256"

/-- A correctly signed token that decodes successfully and carries an
`email` claim matching no stored user. -/
def ghostToken : JwtString :=
  joseEncode
    { iss := some "https://instagram-clone-backend-farm.herokuapp.com",
      exp := some 1000000,
      email := some "ghost@example.com" }
    "secret" "HS256"

/-- The registered-claims invariant the specification asserts of every
login-issued token: `exp > iat`, `iat ≥ nbf + 1`, and
`sub = "username:" + userID`. -/
def claimsLoginInvariant (c : Claims) (uid : String) : Prop :=
  ∃ e i n, c.exp = some e ∧ c.iat = some i ∧ c.nbf = some n ∧
    i < e ∧ n + 1 ≤ i ∧ c.sub = some ("username:" ++ uid)

/-- The `exp`, `iat`, `nbf` and `sub` claims written by the login
payload builder are independent of the middle-name branch. -/
theorem loginPayload_fields (u : User) (s : Settings) (j : String)
    (c : LoginClock) :
    (loginPayload u s j c).exp = some (c.tExp + s.ACCESS_TOKEN_EXPIRE_MINUTES) ∧
    (loginPayload u s j c).iat = some c.tIat ∧
    (loginPayload u s j c).nbf = some (c.tNbf - 1) ∧
    (loginPayload u s j c).sub = some ("username:" ++ u.id) := by
  unfold loginPayload
  split <;> simp

/-- Claim C10: the presented-token decoder `decode_token` is total and
kind-collapsing: it either returns the decoded claims or `None`, and all
three internally distinguished failure kinds (expired signature,
audience/issuer claims error, any other JWT error) produce the same
`None`, indistinguishable to the caller. -/
theorem decode_token_total_and_collapsing (tok : JwtString)
    (setting : Settings) (now : Int) :
    (∀ c, joseDecode tok setting.SECRET_KEY setting.ALGORITHM
        (setting.SERVER_HOST ++ "/authentication/login")
        setting.SERVER_HOST now = .ok c →
      decode_token tok setting now = some c) ∧
    (∀ e, joseDecode tok setting.SECRET_KEY setting.ALGORITHM
        (setting.SERVER_HOST ++ "/authentication/login")
        setting.SERVER_HOST now = .error e →
      decode_token tok setting now = none) := by
  constructor
  · intro c h
    simp [decode_token, h]
  · intro e h
    cases e <;> simp [decode_token, h]

/-- Witness for C10 at a concrete undecodable token. -/
theorem decode_token_total_and_collapsing_witness :
    decode_token (JwtString.garbage "not-a-jwt") sampleSetting 0 = none :=
  (decode_token_total_and_collapsing (JwtString.garbage "not-a-jwt")
    sampleSetting 0).2 JoseError.jwtError rfl

/-- Claim C1 (failing evaluation): whenever decoding the presented
refresh token fails — `decode_token` returns `None` — the refresh
handler subscripts `None` and raises an uncaught `TypeError` (HTTP 500),
instead of the 403 `CredentialsInvalid` the specification states. -/
theorem refresh_decode_failure_crashes (tok : JwtString)
    (setting : Settings) (redis : RedisBackend) (now nowEnc : Int)
    (h : decode_token tok setting now = none) :
    refresh_token_endpoint tok setting redis now nowEnc =
      (.crash "TypeError", redis) := by
  simp [refresh_token_endpoint, h]

/-- Witness for C1 at a concrete garbage token. -/
theorem refresh_decode_failure_crashes_witness :
    refresh_token_endpoint (JwtString.garbage "tampered") sampleSetting
      (.ok sampleStore) 10 20 = (.crash "TypeError", .ok sampleStore) :=
  refresh_decode_failure_crashes (JwtString.garbage "tampered") sampleSetting
    (.ok sampleStore) 10 20 rfl

/-- Claim C7 (counterexample): password verification against a stored
hash string that is not a well-formed hash of a known algorithm does NOT
return verification-failed — it raises passlib's `UnknownHashError`. -/
theorem verify_password_malformed_counterexample :
    verify_password (HashStr.malformed "not-a-recognized-hash") "password123"
        ≠ Except.ok false ∧
      verify_password (HashStr.malformed "not-a-recognized-hash") "password123"
        = Except.error PasslibError.unknownHashError := by
  constructor
  · simp [verify_password, CryptContext.verify]
  · rfl

/-- Claim C7 (amended): for every malformed stored hash and every
plaintext, `verify_password` propagates `UnknownHashError` uncaught; it
never converts the malformed-hash case into `False`. -/
theorem verify_password_malformed_raises (s p : String) :
    verify_password (HashStr.malformed s) p =
      Except.error PasslibError.unknownHashError := rfl

/-- Claim C9 (counterexample): against a user base holding `alice` with
hash of "correct-password", a wrong-password login and an
unknown-username login both return 404 but with DIFFERENT details
("Incorrect password" vs "Invalid credentials") — the response reveals
which of the two causes occurred. -/
theorem login_failure_detail_counterexample :
    (login "alice" "wrong-password" sampleUsers sampleSetting sampleJti
        sampleClock (.ok [])).1 = .httpError 404 "Incorrect password" ∧
    (login "unknown" "x" sampleUsers sampleSetting sampleJti sampleClock
        (.ok [])).1 = .httpError 404 "Invalid credentials" ∧
    (login "alice" "wrong-password" sampleUsers sampleSetting sampleJti
        sampleClock (.ok [])).1 ≠
      (login "unknown" "x" sampleUsers sampleSetting sampleJti sampleClock
        (.ok [])).1 := by
  refine ⟨by decide, by decide, by decide⟩

/-- Claim C9 (amended): an unknown username fails with
404 "Invalid credentials" and a wrong password for an existing user
fails with 404 "Incorrect password" — the same 404 status but distinct
fixed details. -/
theorem login_failure_distinct_messages (username password : String)
    (users : List User) (setting : Settings) (jti : String)
    (clk : LoginClock) (redis : RedisBackend) :
    (List.find? (fun v => v.username == username) users = none →
      (login username password users setting jti clk redis).1 =
        .httpError 404 "Invalid credentials") ∧
    (∀ u, List.find? (fun v => v.username == username) users = some u →
      verify_password u.password password = .ok false →
      (login username password users setting jti clk redis).1 =
        .httpError 404 "Incorrect password") := by
  constructor
  · intro h
    simp [login, h]
  · intro u h hv
    simp [login, h, hv]

/-- Witness for the amended C9 at concrete logins. -/
theorem login_failure_distinct_messages_witness :
    (login "unknown" "x" sampleUsers sampleSetting sampleJti sampleClock
        (.ok [])).1 = .httpError 404 "Invalid credentials" ∧
    (login "alice" "wrong-password" sampleUsers sampleSetting sampleJti
        sampleClock (.ok [])).1 = .httpError 404 "Incorrect password" :=
  ⟨(login_failure_distinct_messages "unknown" "x" sampleUsers sampleSetting
      sampleJti sampleClock (.ok [])).1 (by decide),
    (login_failure_distinct_messages "alice" "wrong-password" sampleUsers
      sampleSetting sampleJti sampleClock (.ok [])).2 sampleUser (by decide)
      rfl⟩

/-- Claim C2 (failing evaluation): the password-reset round trip NEVER
succeeds. The generated token carries no `iss` (and no `email`) claim,
while the verifier demands the configured issuer (python-jose raises
`JWTClaimsError` for a missing `iss`) — so for every email, every
configuration and every pair of clock readings the verifier returns
`None` instead of recovering the email. -/
theorem reset_token_roundtrip_never_succeeds (email : String)
    (setting : Settings) (tIssue tVerify : Int) :
    verify_password_reset_token
      (generate_password_reset_token email setting tIssue) setting tVerify =
      .ok none := by
  by_cases halg : "HS256" = setting.ALGORITHM <;>
    by_cases hnbf : tVerify < tIssue <;>
      by_cases hexp :
          tIssue + 3600 * setting.EMAIL_RESET_TOKEN_EXPIRE_HOURS < tVerify <;>
        simp [verify_password_reset_token, generate_password_reset_token,
          joseEncode, joseDecode, nbfImmature, expExpired, audMismatch,
          issMismatch, halg, hnbf, hexp]

/-- Claim C6 (counterexample): a correctly signed token whose `iss`
claim differs from the configured issuer — an audience/issuer claims
error, i.e. a non-expired decode failure — is answered with 401 and the
claims message, not with 403 "could not validate credentials" as the
claim states. -/
theorem claims_error_response_counterexample :
    get_current_user badIssuerToken sampleSetting [] 5 =
      .httpError 401
        "Authorization claim is incorrect, please check audience and issuer" ∧
    get_current_user badIssuerToken sampleSetting [] 5 ≠
      .httpError 403 "could not validate credentials" ∧
    get_current_user badIssuerToken sampleSetting [] 5 ≠
      .httpError 403 "Could not validate credentials" := by
  refine ⟨by decide, by decide, by decide⟩

/-- Claim C6 (amended): the failure kind determines the response, but
with THREE classes, two of them 401: an expired token yields 401
"Token expired"; a `JWTClaimsError` (audience/issuer mismatch, immature
`nbf`, malformed claim) yields 401 with its own distinct message; every
remaining decode failure (invalid signature, malformed token) yields
403 "Could not validate credentials". -/
theorem token_failure_kind_responses (tok : JwtString) (setting : Settings)
    (userdb : List User) (now : Int) :
    (joseDecode tok setting.SECRET_KEY setting.ALGORITHM
        (setting.SERVER_HOST ++ "/authentication/login")
        setting.SERVER_HOST now = .error .expiredSignature →
      get_current_user tok setting userdb now =
        .httpError 401 "Token expired") ∧
    (joseDecode tok setting.SECRET_KEY setting.ALGORITHM
        (setting.SERVER_HOST ++ "/authentication/login")
        setting.SERVER_HOST now = .error .claimsError →
      get_current_user tok setting userdb now =
        .httpError 401
          "Authorization claim is incorrect, please check audience and issuer") ∧
    (joseDecode tok setting.SECRET_KEY setting.ALGORITHM
        (setting.SERVER_HOST ++ "/authentication/login")
        setting.SERVER_HOST now = .error .jwtError →
      get_current_user tok setting userdb now =
        .httpError 403 "Could not validate credentials") := by
  refine ⟨?_, ?_, ?_⟩ <;> intro h <;> simp [get_current_user, h]

/-- Witness for the amended C6: one concrete token per failure kind. -/
theorem token_failure_kind_responses_witness :
    get_current_user expiredSampleToken sampleSetting [] 5 =
      .httpError 401 "Token expired" ∧
    get_current_user badIssuerToken sampleSetting [] 5 =
      .httpError 401
        "Authorization claim is incorrect, please check audience and issuer" ∧
    get_current_user (JwtString.garbage "zzz") sampleSetting [] 5 =
      .httpError 403 "Could not validate credentials" :=
  ⟨(token_failure_kind_responses expiredSampleToken sampleSetting [] 5).1 rfl,
    (token_failure_kind_responses badIssuerToken sampleSetting [] 5).2.1 rfl,
    (token_failure_kind_responses (JwtString.garbage "zzz") sampleSetting []
      5).2.2 rfl⟩

/-- Claim C5 (failing evaluation): when the reset token decodes and
recovers an email matching no stored user, `AuthService.update_password`
calls `.update` on `None` and the request dies with an uncaught
`AttributeError` (HTTP 500) — not the 404 `UserNotFound` the claim
states. No password is changed (the user base is returned unmodified). -/
theorem reset_unknown_user_crashes (tok : JwtString) (password : String)
    (setting : Settings) (userdb : List User) (now : Int) (email : String)
    (hdec : verify_password_reset_token tok setting now = .ok (some email))
    (habs : List.find? (fun u => u.email == email) userdb = none) :
    reset_password tok password setting userdb now =
      (.crash "AttributeError", userdb) := by
  simp [reset_password, hdec, AuthService.update_password, habs]

/-- Witness for C5: a decodable token for `ghost@example.com` against an
empty user base. -/
theorem reset_unknown_user_crashes_witness :
    reset_password ghostToken "NewPass1*" sampleSetting [] 5 =
      (.crash "AttributeError", []) :=
  reset_unknown_user_crashes ghostToken "NewPass1*" sampleSetting [] 5
    "ghost@example.com" rfl rfl

/-- Claim C3: for every registered user whose password verifies (and a
reachable store), login returns an access token, token type "bearer"
and a refresh token, and afterwards the refresh-token store holds an
entry at key `userID ++ ":" ++ jti` whose value is the returned refresh
token and whose TTL is the configured refresh-token expiry in seconds. -/
theorem login_happy_path (username password : String) (users : List User)
    (setting : Settings) (jti : String) (clk : LoginClock) (st : Store)
    (u : User)
    (hu : List.find? (fun v => v.username == username) users = some u)
    (hp : verify_password u.password password = .ok true) :
    ∃ acc rfr st2,
      login username password users setting jti clk (.ok st) =
        (.ok ⟨acc, "bearer", rfr⟩, .ok st2) ∧
      storeFind st2 (u.id ++ ":" ++ jti) =
        some ⟨u.id ++ ":" ++ jti, rfr,
          setting.refresh_token_expire_seconds⟩ := by
  refine ⟨(create_access_token (loginPayload u setting jti clk) none setting
      clk.tEncA).1,
    (create_refresh_token (create_access_token (loginPayload u setting jti clk)
      none setting clk.tEncA).2 setting clk.tEncR).1,
    storeSet st (u.id ++ ":" ++ jti) setting.refresh_token_expire_seconds
      ((create_refresh_token (create_access_token
        (loginPayload u setting jti clk) none setting clk.tEncA).2 setting
        clk.tEncR).1),
    ?_, ?_⟩
  · simp [login, hu, hp, TokenService.create_token]
  · simp [storeFind, storeSet, List.find?]

/-- Witness for C3 at the concrete happy-path login. -/
theorem login_happy_path_witness :
    ∃ acc rfr st2,
      login "alice" "correct-password" sampleUsers sampleSetting sampleJti
          sampleClock (.ok []) = (.ok ⟨acc, "bearer", rfr⟩, .ok st2) ∧
      storeFind st2 (sampleUser.id ++ ":" ++ sampleJti) =
        some ⟨sampleUser.id ++ ":" ++ sampleJti, rfr,
          sampleSetting.refresh_token_expire_seconds⟩ :=
  login_happy_path "alice" "correct-password" sampleUsers sampleSetting
    sampleJti sampleClock [] sampleUser (by decide) rfl

/-- Claim C8: with a monotone request clock and positive configured
TTLs, both tokens issued by a successful login satisfy the claims
invariants `exp > iat`, `iat ≥ nbf + 1` (with `nbf` one second before
its clock reading) and `sub = "username:" ++ userID`. -/
theorem login_token_claims_invariants (username password : String)
    (users : List User) (setting : Settings) (jti : String)
    (clk : LoginClock) (st : Store) (u : User)
    (hmono : clk.Mono)
    (hA : 1 ≤ setting.ACCESS_TOKEN_EXPIRE_MINUTES)
    (hR : 1 ≤ setting.REFRESH_TOKEN_EXPIRE_MINUTES)
    (hu : List.find? (fun v => v.username == username) users = some u)
    (hp : verify_password u.password password = .ok true) :
    ∃ ca cr st2,
      login username password users setting jti clk (.ok st) =
        (.ok ⟨.signed ca setting.SECRET_KEY setting.ALGORITHM, "bearer",
          .signed cr setting.SECRET_KEY setting.ALGORITHM⟩, .ok st2) ∧
      claimsLoginInvariant ca u.id ∧ claimsLoginInvariant cr u.id := by
  obtain ⟨hm1, hm2, hm3, hm4⟩ := hmono
  obtain ⟨hpe, hpi, hpn, hps⟩ := loginPayload_fields u setting jti clk
  refine ⟨(create_access_token (loginPayload u setting jti clk) none setting
      clk.tEncA).2,
    (create_refresh_token (create_access_token (loginPayload u setting jti clk)
      none setting clk.tEncA).2 setting clk.tEncR).2,
    storeSet st (u.id ++ ":" ++ jti) setting.refresh_token_expire_seconds
      ((create_refresh_token (create_access_token
        (loginPayload u setting jti clk) none setting clk.tEncA).2 setting
        clk.tEncR).1),
    ?_, ?_, ?_⟩
  · simp [login, hu, hp, TokenService.create_token, create_access_token,
      create_refresh_token, joseEncode]
  · refine ⟨clk.tEncA + 60 * setting.ACCESS_TOKEN_EXPIRE_MINUTES, clk.tIat,
      clk.tNbf - 1, ?_, ?_, ?_, ?_, ?_, ?_⟩ <;>
      first
        | omega
        | simp [create_access_token, hpi, hpn, hps]
  · refine ⟨clk.tEncR + 60 * setting.REFRESH_TOKEN_EXPIRE_MINUTES, clk.tIat,
      clk.tNbf - 1, ?_, ?_, ?_, ?_, ?_, ?_⟩ <;>
      first
        | omega
        | simp [create_refresh_token, create_access_token, hpi, hpn, hps]

/-- Witness for C8 at the concrete happy-path login. -/
theorem login_token_claims_invariants_witness :
    ∃ ca cr st2,
      login "alice" "correct-password" sampleUsers sampleSetting sampleJti
          sampleClock (.ok []) =
        (.ok ⟨.signed ca sampleSetting.SECRET_KEY sampleSetting.ALGORITHM,
          "bearer",
          .signed cr sampleSetting.SECRET_KEY sampleSetting.ALGORITHM⟩,
          .ok st2) ∧
      claimsLoginInvariant ca sampleUser.id ∧
      claimsLoginInvariant cr sampleUser.id :=
  login_token_claims_invariants "alice" "correct-password" sampleUsers
    sampleSetting sampleJti sampleClock [] sampleUser
    ⟨by decide, by decide, by decide, by decide⟩
    (by decide) (by decide) (by decide) rfl

/-- Claim C4: every successful refresh leaves the store untouched (the
refresh token is not rotated) and returns an access token signed from
the claims the jose decode of the STORED refresh-token value produced,
all claims equal to the stored ones except `exp`, which is freshly
computed as encode-time plus the configured access TTL. -/
theorem refresh_access_token_from_stored_claims (tok : JwtString)
    (setting : Settings) (redis : RedisBackend) (now nowEnc : Int)
    (newTok : JwtString) (redis2 : RedisBackend)
    (hrun : refresh_token_endpoint tok setting redis now nowEnc =
      (.ok newTok, redis2)) :
    redis2 = redis ∧
    ∃ key stored sc,
      TokenService.get_token key redis = some stored ∧
      joseDecode stored setting.SECRET_KEY setting.ALGORITHM
        (setting.SERVER_HOST ++ "/authentication/login")
        setting.SERVER_HOST now = .ok sc ∧
      newTok = joseEncode
        { sc with exp := some (nowEnc + 60 * setting.ACCESS_TOKEN_EXPIRE_MINUTES) }
        setting.SECRET_KEY setting.ALGORITHM := by
  unfold refresh_token_endpoint at hrun
  split at hrun
  · exact absurd hrun (by simp)
  · split at hrun
    · exact absurd hrun (by simp)
    · split at hrun
      · exact absurd hrun (by simp)
      · split at hrun
        · exact absurd hrun (by simp)
        · split at hrun
          · exact absurd hrun (by simp)
          · exact absurd hrun (by simp)
          · exact absurd hrun (by simp)
          · split at hrun
            · split at hrun
              · exact absurd hrun (by simp)
              · split at hrun
                · exact absurd hrun (by simp)
                · split at hrun
                  · exact absurd hrun (by simp)
                  · split at hrun
                    · exact absurd hrun (by simp)
                    · simp only [Prod.mk.injEq, Outcome.ok.injEq] at hrun
                      obtain ⟨hnew, hred⟩ := hrun
                      subst hred
                      subst hnew
                      refine ⟨rfl, _, _, _, by assumption, by assumption, ?_⟩
                      simp [create_access_token, joseEncode]
            · exact absurd hrun (by simp)

/-- Witness for C4 at a concrete successful refresh. -/
theorem refresh_access_token_from_stored_claims_witness :
    RedisBackend.ok sampleStore = RedisBackend.ok sampleStore ∧
    ∃ key stored sc,
      TokenService.get_token key (.ok sampleStore) = some stored ∧
      joseDecode stored sampleSetting.SECRET_KEY sampleSetting.ALGORITHM
        (sampleSetting.SERVER_HOST ++ "/authentication/login")
        sampleSetting.SERVER_HOST 10 = .ok sc ∧
      joseEncode { sampleClaims with exp := some 1820 }
          sampleSetting.SECRET_KEY sampleSetting.ALGORITHM = joseEncode
        { sc with exp := some (20 + 60 * sampleSetting.ACCESS_TOKEN_EXPIRE_MINUTES) }
        sampleSetting.SECRET_KEY sampleSetting.ALGORITHM :=
  refresh_access_token_from_stored_claims sampleStoredToken sampleSetting
    (.ok sampleStore) 10 20
    (joseEncode { sampleClaims with exp := some 1820 }
      sampleSetting.SECRET_KEY sampleSetting.ALGORITHM)
    (.ok sampleStore) (by decide)
